import Mathlib

/-
  Verification of the go-papi-lite session/transport core.

  The Go source (papi_lite.go: PapiSession, NewSession, Connect, Disconnect,
  Reconnect, SendRaw, Send, setHeaders) is shallowly embedded below.  HTTP
  traffic is modelled by a scripted environment: every round trip through the
  HTTP client consumes the next scripted response and appends the dispatched
  request to a log.  Go maps are modelled as association lists with distinct
  keys; since the Go code only reads, overwrites and deletes individual keys,
  map-iteration order never influences observable results for distinct keys.
-/

namespace Papi

/-- JSON-like values as produced by json.Unmarshal into interface values. -/
inductive Jval where
  | null : Jval
  | bool : Bool → Jval
  | num : Int → Jval
  | str : String → Jval
  | arr : List Jval → Jval
  | obj : List (String × Jval) → Jval

/-- A decoded JSON object (Go map from string to interface value). -/
abbrev JsonObj := List (String × Jval)

/-- Map read with comma-ok semantics: jsonObj[k]. -/
def getKey (o : JsonObj) (k : String) : Option Jval :=
  (o.find? (fun kv => kv.1 == k)).map (fun kv => kv.2)

/-- Map write: jsonObj[k] = v (overwrite existing entry, else add). -/
def setKey (o : JsonObj) (k : String) (v : Jval) : JsonObj :=
  if (o.find? (fun kv => kv.1 == k)).isSome
  then o.map (fun kv => if kv.1 == k then (k, v) else kv)
  else o ++ [(k, v)]

/-- Map delete: delete(jsonObj, k). -/
def delKey (o : JsonObj) (k : String) : JsonObj :=
  o.filter (fun kv => !(kv.1 == k))

/-- Constant defaultConnTimeout from the source. -/
def defaultConnTimeout : Int := 120

/-- Constant defaultMaxReauthCount from the source. -/
def defaultMaxReauthCount : Nat := 1

/-- Constant sessionPath from the source. -/
def sessionPath : String := "session/1/session"

/-- Constant maxCount from the source: ceiling on pagination iterations. -/
def maxCount : Nat := 10000

/-- The PapiSession state object.  The http.Client handle is modelled by a
Boolean recording whether a client is currently held (Go: Client != nil). -/
structure PapiSession where
  User : String
  Password : String
  Endpoint : String
  IgnoreCert : Bool
  SessionToken : String
  CsrfToken : String
  Client : Bool
  ConnTimeout : Int
  reauthCount : Nat

/-- NewSession factory function: zero values except endpoint and timeout. -/
def NewSession (endpoint : String) : PapiSession :=
  { User := "", Password := "", Endpoint := endpoint, IgnoreCert := false,
    SessionToken := "", CsrfToken := "", Client := false,
    ConnTimeout := defaultConnTimeout, reauthCount := 0 }

/-- init helper: allocates the http.Client. -/
def initClient (ctx : PapiSession) : PapiSession :=
  { ctx with Client := true }

/-- Raw bytes of a response body, at the granularity Send distinguishes:
empty body, a body that unmarshals to a JSON object, or undecodable bytes. -/
inductive RawBody where
  | empty : RawBody
  | malformed : RawBody
  | json : JsonObj → RawBody

/-- One scripted HTTP round-trip outcome: a transport error from Client.Do,
or a response with status code, Set-Cookie header values and a body. -/
inductive NetResp where
  | err : String → NetResp
  | ok : Nat → List String → RawBody → NetResp

/-- An outgoing request, recorded when it is handed to the HTTP client. -/
structure Request where
  method : String
  path : String
  query : List (String × String)
deriving DecidableEq

/-- The network environment: the pending scripted responses and the log of
requests dispatched so far (oldest first). -/
structure World where
  script : List NetResp
  log : List Request

/-- One HTTP round trip: consume the next scripted response (an exhausted
script behaves as a transport error) and record the request. -/
def doRequest (w : World) (r : Request) : NetResp × World :=
  match w.script with
  | [] => (NetResp.err "no response", { script := [], log := w.log ++ [r] })
  | resp :: rest => (resp, { script := rest, log := w.log ++ [r] })

/-
  Cookie token extraction.  Connect matches each Set-Cookie header value
  against the anchored greedy patterns for isisessid / isicsrf.  A greedy
  leading wildcard means the capture comes from the last occurrence of the
  cookie name that is followed by at least one non-semicolon character, and
  the capture extends to the next semicolon or the end of the value.
-/

/-- Capture of the token following the last viable occurrence of the needle:
the regex engine prefers the latest start (greedy leading wildcard) at which
at least one non-semicolon character follows the needle. -/
def lastTokenMatch (needle : List Char) : List Char → Option (List Char)
  | [] => none
  | c :: cs =>
    match lastTokenMatch needle cs with
    | some t => some t
    | none =>
      if needle.isPrefixOf (c :: cs) then
        let tok := ((c :: cs).drop needle.length).takeWhile (fun d => d ≠ ';')
        if tok.isEmpty then none else some tok
      else none

/-- rexSession.FindStringSubmatch: extract the isisessid token, if any. -/
def rexSessionFind (s : String) : Option String :=
  (lastTokenMatch "isisessid=".data s.data).map (fun cs => String.mk cs)

/-- rexCsrf.FindStringSubmatch: extract the isicsrf token, if any. -/
def rexCsrfFind (s : String) : Option String :=
  (lastTokenMatch "isicsrf=".data s.data).map (fun cs => String.mk cs)

/-- Body of Connect's Set-Cookie loop for a single header value: a header
matching the session pattern sets the session token (and is not examined for
the CSRF pattern); otherwise a CSRF match sets the anti-forgery token. -/
def cookieStep (ctx : PapiSession) (h : String) : PapiSession :=
  match rexSessionFind h with
  | some t => { ctx with SessionToken := t }
  | none =>
    match rexCsrfFind h with
    | some t => { ctx with CsrfToken := t }
    | none => ctx

/-- Connect's loop over all Set-Cookie header instances, in order. -/
def scanCookies (cookies : List String) (ctx : PapiSession) : PapiSession :=
  cookies.foldl cookieStep ctx

/-- Disconnect's error value, from the result of the DELETE round trip. -/
def disconnectErr : NetResp → Option String
  | NetResp.err m => some ("[Disconnect] Session delete error: " ++ m)
  | NetResp.ok _ _ _ => none

/-- Disconnect: no-op when no client is held; otherwise send the session
DELETE, then unconditionally release the client and clear both tokens,
returning any transport error from the DELETE. -/
def Disconnect (ctx : PapiSession) (w : World) :
    Option String × PapiSession × World :=
  if ctx.Client = false then (none, ctx, w)
  else
    let r := doRequest w { method := "DELETE", path := sessionPath, query := [] }
    (disconnectErr r.1,
     { ctx with Client := false, SessionToken := "", CsrfToken := "" },
     r.2)

/-- Connect: disconnect any existing session, initialize the client if absent,
POST to the session resource, extract both tokens from the Set-Cookie headers,
fail if the status is not 2xx or either token is missing, and reset the
re-authentication counter on success. -/
def Connect (ctx : PapiSession) (w : World) :
    Option String × PapiSession × World :=
  let d := Disconnect ctx w
  let ctx1 := d.2.1
  let w1 := d.2.2
  let ctx2 := if ctx1.Client then ctx1 else initClient ctx1
  let r := doRequest w1 { method := "POST", path := sessionPath, query := [] }
  match r.1 with
  | NetResp.err e => (some ("[Connect] Client.Do error: " ++ e), ctx2, r.2)
  | NetResp.ok status cookies _ =>
    if status < 200 ∨ status > 299 then
      (some "[Connect] Unable to create a session", ctx2, r.2)
    else
      let ctx3 := scanCookies cookies ctx2
      if ctx3.SessionToken = "" then
        (some "[Connect] No session token found in API connect call", ctx3, r.2)
      else if ctx3.CsrfToken = "" then
        (some "[Connect] No CSRF token found in API connect call", ctx3, r.2)
      else (none, { ctx3 with reauthCount := 0 }, r.2)

/-- Reconnect: Disconnect (error ignored) then Connect. -/
def Reconnect (ctx : PapiSession) (w : World) :
    Option String × PapiSession × World :=
  let d := Disconnect ctx w
  Connect d.2.1 d.2.2

/-
  Send: pagination loop with automatic 401 re-authentication.
-/

/-- Outcome of a Send call: success with an optional payload (an empty body
yields success with no payload), an error, a Go runtime panic (failed
interface type assertion), or exhaustion of the recursion fuel of the model
(the fuel only bounds the 401-retry recursion; it is a model artifact and
not a behavior of the program). -/
inductive SendResult where
  | ok : Option JsonObj → SendResult
  | err : String → SendResult
  | panic : String → SendResult
  | fuelOut : SendResult

/-- json.Unmarshal into the already-used jsonTemp map: the existing map is
reused and each key of the new page overwrites or adds an entry, so entries
from earlier pages that the new page does not mention are kept. -/
def unmarshalInto (old : JsonObj) (page : JsonObj) : JsonObj :=
  page.foldl (fun m kv => setKey m kv.1 kv.2) old

/-- The resume extraction:
rkey, resume = jsonTemp["resume"]; if resume { if rkey != nil { resumeKey =
rkey.(string) } else { resume = false } }.  Returns the new (resumeKey,
resume) pair, or none when the string type assertion panics. -/
def resumeStep : Option Jval → String → Option (String × Bool)
  | none, rk => some (rk, false)
  | some Jval.null, rk => some (rk, false)
  | some (Jval.str s), _ => some (s, true)
  | some _, _ => none

/-- One key of the merge loop: when the accumulated value is an ordered
sequence the page value is type-asserted to a sequence (none = panic) and its
elements appended; any other accumulated value is overwritten; an absent key
is set. -/
def mergeKey (jsonBody : JsonObj) (key : String) (dval : Jval) :
    Option JsonObj :=
  match getKey jsonBody key with
  | some sval =>
    match sval with
    | Jval.arr svals =>
      match dval with
      | Jval.arr dvals => some (setKey jsonBody key (Jval.arr (svals ++ dvals)))
      | _ => none
    | _ => some (setKey jsonBody key dval)
  | none => some (setKey jsonBody key dval)

/-- The merge loop over every entry of the (cleaned) page map. -/
def mergePage (jsonBody : JsonObj) : JsonObj → Option JsonObj
  | [] => some jsonBody
  | kv :: rest =>
    match mergeKey jsonBody kv.1 kv.2 with
    | none => none
    | some jb2 => mergePage jb2 rest

/-- The non-2xx error of Send. -/
def non2xxMsg (status : Nat) : String :=
  "[Send] Non 2xx response received (" ++ toString status ++ ")"

/-- The body of Send's pagination loop.  Parameters mirror the Go locals:
query (reassigned to the continuation query when a resume key is held),
jsonBody (the accumulated result), jsonTemp (the reused unmarshal target),
resumeKey and resume.  rem counts the remaining loop iterations down from
maxCount (Go counts up with count < maxCount).  retry is the recursive
Send(method, path, query, body, headers) call made after a 401
re-authentication. -/
def sendLoop
    (retry : PapiSession → World → List (String × String) →
      SendResult × PapiSession × World)
    (method path : String) :
    Nat → PapiSession → World → List (String × String) → JsonObj → JsonObj →
      String → Bool → SendResult × PapiSession × World
  | 0, ctx, w, _, jsonBody, _, _, _ => (SendResult.ok (some jsonBody), ctx, w)
  | _ + 1, ctx, w, _, jsonBody, _, _, false =>
    (SendResult.ok (some jsonBody), ctx, w)
  | rem + 1, ctx, w, query, jsonBody, jsonTemp, resumeKey, true =>
    let query := if resumeKey ≠ "" then [("resume", resumeKey)] else query
    let r := doRequest w { method := method, path := path, query := query }
    match r.1 with
    | NetResp.err e =>
      (SendResult.err ("[Send] Error returned by SendRaw: " ++ e), ctx, r.2)
    | NetResp.ok status _ rawBody =>
      if status < 200 ∨ status > 299 then
        if status = 401 then
          if defaultMaxReauthCount ≤ ctx.reauthCount then
            (SendResult.err (non2xxMsg status), ctx, r.2)
          else
            let ctx1 := { ctx with reauthCount := ctx.reauthCount + 1 }
            let rc := Reconnect ctx1 r.2
            retry rc.2.1 rc.2.2 query
        else (SendResult.err (non2xxMsg status), ctx, r.2)
      else
        match rawBody with
        | RawBody.empty => (SendResult.ok none, ctx, r.2)
        | RawBody.malformed =>
          (SendResult.err "[Send] Error unmarshaling JSON", ctx, r.2)
        | RawBody.json page =>
          let jt := unmarshalInto jsonTemp page
          match resumeStep (getKey jt "resume") resumeKey with
          | none =>
            (SendResult.panic "interface conversion: interface is not string",
             ctx, r.2)
          | some rs =>
            if (getKey jsonBody "errors").isSome then
              (SendResult.err
                "[Send] Response to Send request returned errors in JSON",
               ctx, r.2)
            else
              let jt2 := delKey (delKey (delKey jt "errors") "resume") "total"
              match mergePage jsonBody jt2 with
              | none =>
                (SendResult.panic
                  "interface conversion: interface is not a slice", ctx, r.2)
              | some jb2 =>
                sendLoop retry method path rem ctx r.2 query jb2 jt2 rs.1 rs.2

/-- Send(method, path, query, body, headers).  The fuel bounds only the
recursion entered after a 401 re-authentication; each unit of fuel is one
Send activation.  The body and extra-headers arguments play no role in the
scripted environment and are omitted. -/
def SendGo :
    Nat → PapiSession → World → String → String → List (String × String) →
      SendResult × PapiSession × World
  | 0, ctx, w, _, _, _ => (SendResult.fuelOut, ctx, w)
  | fuel + 1, ctx, w, method, path, query =>
    sendLoop (fun c ww q => SendGo fuel c ww method path q) method path
      maxCount ctx w query [] [] "" true

/-
  setHeaders.  Go's http.Header is a map from header name to a list of
  values.  Caller headers are written with a direct map assignment (exact
  name preserved); default headers go through Header.Add, which first
  canonicalizes the name (textproto.CanonicalMIMEHeaderKey) and appends to
  any values already stored under the canonical name.
-/

/-- http.Header: map from header name to ordered list of values. -/
abbrev Header := List (String × List String)

/-- Map read of a header entry by exact name. -/
def lookupHdr (h : Header) (k : String) : Option (List String) :=
  (h.find? (fun kv => kv.1 == k)).map (fun kv => kv.2)

/-- Map write of a header entry by exact name (overwrite or add). -/
def setHdr (h : Header) (k : String) (vs : List String) : Header :=
  if (h.find? (fun kv => kv.1 == k)).isSome
  then h.map (fun kv => if kv.1 == k then (k, vs) else kv)
  else h ++ [(k, vs)]

/-- Legal MIME header name bytes: letters, digits and the RFC 7230 token
punctuation (codes 33 35 36 37 38 39 42 43 45 46 94 95 96 124 126). -/
def validHeaderFieldChar (c : Char) : Bool :=
  (97 ≤ c.toNat && c.toNat ≤ 122) || (65 ≤ c.toNat && c.toNat ≤ 90) ||
  (48 ≤ c.toNat && c.toNat ≤ 57) ||
  [33, 35, 36, 37, 38, 39, 42, 43, 45, 46, 94, 95, 96, 124, 126].contains c.toNat

/-- Canonicalization pass: uppercase a letter at the start or after a
hyphen, lowercase every other letter. -/
def canonChars : Bool → List Char → List Char
  | _, [] => []
  | up, c :: cs =>
    let c2 : Char :=
      if up && (97 ≤ c.toNat && c.toNat ≤ 122) then Char.ofNat (c.toNat - 32)
      else if (!up) && (65 ≤ c.toNat && c.toNat ≤ 90) then
        Char.ofNat (c.toNat + 32)
      else c
    c2 :: canonChars (c2 == '-') cs

/-- textproto.CanonicalMIMEHeaderKey: canonicalize a valid header name,
return an invalid one unchanged. -/
def CanonicalMIMEHeaderKey (s : String) : String :=
  if s.data.all validHeaderFieldChar then String.mk (canonChars true s.data)
  else s

/-- http.Header.Add: canonicalize the name and append the value to the
values already stored under the canonical name. -/
def addHdr (h : Header) (k v : String) : Header :=
  let ck := CanonicalMIMEHeaderKey k
  match lookupHdr h ck with
  | some vs => setHdr h ck (vs ++ [v])
  | none => setHdr h ck [v]

/-- First phase of setHeaders: each caller-supplied header is stored with a
direct map assignment req.Header[k] = [v], preserving the name's casing. -/
def callerAssign (h : Header) (headers : List (String × String)) : Header :=
  headers.foldl (fun acc kv => setHdr acc kv.1 [kv.2]) h

/-- The defaultHeaders map built by setHeaders from the session state. -/
def defaultHeaders (ctx : PapiSession) : List (String × String) :=
  [("Accept", "application/json"),
   ("Cookie", "isisessid=" ++ ctx.SessionToken),
   ("Content-Type", "application/json"),
   ("Referer", ctx.Endpoint),
   ("X-CSRF-Token", ctx.CsrfToken)]

/-- Second phase of setHeaders: each default header is added (via
Header.Add) only when its exact name is not already a key of the map. -/
def addDefaults (ctx : PapiSession) (h : Header) : Header :=
  (defaultHeaders ctx).foldl
    (fun acc kv =>
      if (lookupHdr acc kv.1).isSome then acc else addHdr acc kv.1 kv.2) h

/-- setHeaders(req, ctx, headers): caller headers first, then defaults. -/
def setHeaders (h : Header) (ctx : PapiSession)
    (headers : List (String × String)) : Header :=
  addDefaults ctx (callerAssign h headers)

/-
  Concrete fixtures used by the scenario theorems below.
-/

/-- A connected session: both tokens held, client allocated, counter 0
(the state left by a successful Connect). -/
def ctxC : PapiSession :=
  { User := "u", Password := "p", Endpoint := "e", IgnoreCert := false,
    SessionToken := "a", CsrfToken := "b", Client := true,
    ConnTimeout := 120, reauthCount := 0 }

/-- A 401 Authorization-required response to a data request. -/
def resp401 : NetResp := NetResp.ok 401 [] RawBody.empty

/-- A successful response to the session DELETE of Disconnect. -/
def respDel : NetResp := NetResp.ok 204 [] RawBody.empty

/-- A successful session POST response carrying both cookies, yielding the
same tokens that ctxC holds. -/
def respSess : NetResp :=
  NetResp.ok 201 ["isisessid=a; path=/", "isicsrf=b; path=/"] RawBody.empty

/-- A final 200 data page with no resume token. -/
def respOkX : NetResp := NetResp.ok 200 [] (RawBody.json [("x", Jval.num 7)])

/-- n rounds of: 401 on the data request, then a successful re-login
(session DELETE + session POST). -/
def reauthScript : Nat → List NetResp
  | 0 => []
  | n + 1 => resp401 :: respDel :: respSess :: reauthScript n

/-- Page 1 of the pagination scenario: items [1,2] and a resume token. -/
def respPage1 : NetResp := NetResp.ok 200 [] (RawBody.json
  [("items", Jval.arr [Jval.num 1, Jval.num 2]), ("resume", Jval.str "abc")])

/-- Page 2 of the pagination scenario: items [3] and a total field. -/
def respPage2 : NetResp := NetResp.ok 200 [] (RawBody.json
  [("items", Jval.arr [Jval.num 3]), ("total", Jval.num 3)])

/-- Page with key a and a resume token (leftover-key scenario, page 1). -/
def respLeft1 : NetResp := NetResp.ok 200 [] (RawBody.json
  [("a", Jval.arr [Jval.num 1]), ("resume", Jval.str "t")])

/-- Page with only key b (leftover-key scenario, page 2). -/
def respLeft2 : NetResp := NetResp.ok 200 [] (RawBody.json
  [("b", Jval.num 2)])

/-- First page with a resume token, for the 401-on-continuation scenario. -/
def respPg1 : NetResp := NetResp.ok 200 [] (RawBody.json
  [("items", Jval.arr [Jval.num 1]), ("resume", Jval.str "abc")])

/-- A 200 page whose decoded body carries an errors field. -/
def respErrors : NetResp := NetResp.ok 200 [] (RawBody.json
  [("errors", Jval.arr [Jval.obj [("code", Jval.str "X"),
                                  ("message", Jval.str "y")]]),
   ("a", Jval.num 1)])

/-- A 200 page whose resume field is a number (non-null, non-string). -/
def respNumTok : NetResp := NetResp.ok 200 [] (RawBody.json
  [("resume", Jval.num 5), ("a", Jval.num 1)])

/-- A 200 page whose resume field is the empty string. -/
def respEmptyTok : NetResp := NetResp.ok 200 [] (RawBody.json
  [("resume", Jval.str ""), ("a", Jval.arr [Jval.num 1])])

/-- The merge described by the specification text, for comparison with the
code's mergeKey: append when both values are sequences, otherwise the
page's value replaces or sets the accumulated value outright. -/
def mergeKeySpec (acc : JsonObj) (k : String) (v : Jval) : JsonObj :=
  match getKey acc k, v with
  | some (Jval.arr s), Jval.arr d => setKey acc k (Jval.arr (s ++ d))
  | _, _ => setKey acc k v

/-- Tokens both empty or both non-empty: the state invariant asserted by
the specification. -/
def bothOrNeither (s : PapiSession) : Prop :=
  (s.SessionToken = "" ∧ s.CsrfToken = "") ∨
  (s.SessionToken ≠ "" ∧ s.CsrfToken ≠ "")

instance (s : PapiSession) : Decidable (bothOrNeither s) := by
  unfold bothOrNeither; infer_instance

/-!  Helper lemmas  -/

/-- One full re-authentication round against ctxC: the data request draws a
401, the counter is below the maximum, so Send increments it, Reconnect
tears the session down (DELETE) and logs back in (POST, restoring the same
tokens and resetting the counter to 0), and Send recurses with one unit of
fuel less — back in the same session state. -/
theorem reauthRound (fuel : Nat) (rest : List NetResp) (l : List Request)
    (q : List (String × String)) :
    SendGo (fuel + 1) ctxC ⟨resp401 :: respDel :: respSess :: rest, l⟩
        "GET" "pth" q
      = SendGo fuel ctxC
          ⟨rest, ((l ++ [⟨"GET", "pth", q⟩]) ++ [⟨"DELETE", sessionPath, []⟩])
              ++ [⟨"POST", sessionPath, []⟩]⟩ "GET" "pth" q := rfl

/-- A Connect that returns success leaves both tokens non-empty, because it
checks each token for emptiness before succeeding. -/
theorem connect_ok_tokens (ctx : PapiSession) (w : World) (ctx2 : PapiSession)
    (w2 : World) (h : Connect ctx w = (none, ctx2, w2)) :
    ctx2.SessionToken ≠ "" ∧ ctx2.CsrfToken ≠ "" := by
  simp only [Connect] at h
  repeat' split at h
  all_goals simp only [Prod.mk.injEq] at h
  all_goals first
    | exact absurd h.1 (Option.some_ne_none _)
    | (rename_i hst hcs
       rw [← h.2.1]
       exact ⟨by simpa using hst, by simpa using hcs⟩)

/-- The cookie loop processes headers in order, the last one last. -/
theorem scanCookies_snoc (cookies : List String) (h : String)
    (ctx : PapiSession) :
    scanCookies (cookies ++ [h]) ctx = cookieStep (scanCookies cookies ctx) h := by
  simp [scanCookies]

/-!  Claims  -/

/-- Claim C1.  The claim asserts that at most one re-authentication occurs
per top-level Send and that a second consecutive 401 surfaces as an error.
The code violates this: Connect resets reauthCount to 0 on success, so a
successful reconnection re-arms the retry.  First conjunct: with a script
of n rounds of (401, session DELETE ok, session POST ok), Send never
returns — it exhausts any amount of fuel.  Remaining conjuncts: with two
consecutive 401s each followed by a successful re-login, Send reconnects
twice (two session POSTs in the request log) and finally succeeds, instead
of failing after the second 401. -/
theorem send_second_401_loops :
    (∀ n l q, (SendGo n ctxC ⟨reauthScript n, l⟩ "GET" "pth" q).1
        = SendResult.fuelOut) ∧
    ((SendGo 3 ctxC
        ⟨[resp401, respDel, respSess, resp401, respDel, respSess, respOkX],
         []⟩ "GET" "pth" [("a", "b")]).1
      = SendResult.ok (some [("x", Jval.num 7)])) ∧
    ((SendGo 3 ctxC
        ⟨[resp401, respDel, respSess, resp401, respDel, respSess, respOkX],
         []⟩ "GET" "pth" [("a", "b")]).2.2.log.countP
          (fun r => r.method == "POST" && r.path == sessionPath) = 2) := by
  refine ⟨?_, rfl, rfl⟩
  intro n
  induction n with
  | zero => intro l q; rfl
  | succ n ih => intro l q; rw [reauthScript, reauthRound]; exact ih _ _

/-- Claim C6.  The claim asserts that an errors field in a 2xx page makes
Send fail.  The code checks jsonBody (the accumulated result) instead of
jsonTemp (the current page), and every merge first deletes the errors key,
so the check can never fire: a single 200 page carrying an errors field is
merged and returned as success, with the errors entries silently dropped. -/
theorem errors_field_ignored :
    (SendGo 1 ctxC ⟨[respErrors], []⟩ "GET" "p" []).1
      = SendResult.ok (some [("a", Jval.num 1)]) := rfl

/-- Claim C7.  At any iteration of the pagination loop, a 2xx response with
an empty body makes Send return success with no payload immediately,
whatever has been accumulated (jb), whatever resume key is pending and
whatever responses remain scripted. -/
theorem empty_body_short_circuit
    (retry : PapiSession → World → List (String × String) →
      SendResult × PapiSession × World)
    (method path : String) (rem : Nat) (ctx : PapiSession) (l : List Request)
    (s : List NetResp) (cookies : List String) (status : Nat)
    (query : List (String × String)) (jb jt : JsonObj) (rk : String)
    (h1 : 200 ≤ status) (h2 : status ≤ 299) :
    (sendLoop retry method path (rem + 1) ctx
      ⟨NetResp.ok status cookies RawBody.empty :: s, l⟩ query jb jt rk true).1
      = SendResult.ok none := by
  simp only [sendLoop, doRequest]
  rw [if_neg (by omega : ¬ (status < 200 ∨ status > 299))]

/-- Witness for C7: an empty-body 204 on the second page returns success
with no payload, discarding the items accumulated from page one. -/
theorem empty_body_short_circuit_w :
    (sendLoop (fun c ww _ => (SendResult.fuelOut, c, ww)) "GET" "items" 9999
      ctxC ⟨[NetResp.ok 204 [] RawBody.empty], []⟩ []
      [("items", Jval.arr [Jval.num 1, Jval.num 2])] [] "abc" true).1
      = SendResult.ok none := by
  apply empty_body_short_circuit <;> omega

/-- Counterexample for C2.  The claim says that on a type clash other than
array-vs-array the page's value replaces the accumulated value.  In the
code the switch inspects only the accumulated value: when it is an array
the page's value is type-asserted to an array, so an accumulated array
meeting a page number panics (modelled as none) instead of being replaced
with the number, as the spec-described merge would do.  Moreover the
decoder reuses the page map across iterations, so a key of page 1 that
page 2 does not overwrite is merged a second time: pages {a:[1],
resume:"t"} then {b:2} yield {a:[1,1], b:2}, not the claim's {a:[1], b:2}. -/
theorem merge_claim_cex :
    (mergeKey [("k", Jval.arr [Jval.null])] "k" (Jval.num 2) = none) ∧
    (mergeKeySpec [("k", Jval.arr [Jval.null])] "k" (Jval.num 2)
      = [("k", Jval.num 2)]) ∧
    (mergeKey [("k", Jval.arr [Jval.null])] "k" (Jval.num 2)
      ≠ some (mergeKeySpec [("k", Jval.arr [Jval.null])] "k" (Jval.num 2))) ∧
    ((SendGo 1 ctxC ⟨[respLeft1, respLeft2], []⟩ "GET" "x" []).1
      = SendResult.ok
          (some [("a", Jval.arr [Jval.num 1, Jval.num 1]), ("b", Jval.num 2)])) ∧
    (SendResult.ok
        (some [("a", Jval.arr [Jval.num 1, Jval.num 1]), ("b", Jval.num 2)])
      ≠ SendResult.ok (some [("a", Jval.arr [Jval.num 1]), ("b", Jval.num 2)])) :=
  ⟨rfl, rfl, fun h => Option.noConfusion h, rfl, by simp⟩

/-- Claim C2 as amended.  Each decoded page overlays the previous
iteration's cleaned page map (unmarshalInto), so keys from earlier pages
persist unless overwritten.  Per key of the cleaned map: if the
accumulated value is an array and the page value is an array, the page's
elements are appended after the accumulated ones; if the accumulated value
is an array and the page value is not, the merge panics; if the
accumulated value is present and not an array, or the key is absent, the
page's value replaces or sets it.  The two-page items scenario still
yields exactly items [1,2,3]; the leftover-key scenario shows the overlay
behavior. -/
theorem merge_amended :
    (∀ acc k s d, getKey acc k = some (Jval.arr s) →
      mergeKey acc k (Jval.arr d) = some (setKey acc k (Jval.arr (s ++ d)))) ∧
    (∀ acc k v sv, getKey acc k = some sv → (∀ l, sv ≠ Jval.arr l) →
      mergeKey acc k v = some (setKey acc k v)) ∧
    (∀ acc k v, getKey acc k = none →
      mergeKey acc k v = some (setKey acc k v)) ∧
    (∀ acc k s v, getKey acc k = some (Jval.arr s) → (∀ l, v ≠ Jval.arr l) →
      mergeKey acc k v = none) ∧
    ((SendGo 1 ctxC ⟨[respPage1, respPage2], []⟩ "GET" "items" []).1
      = SendResult.ok
          (some [("items", Jval.arr [Jval.num 1, Jval.num 2, Jval.num 3])])) ∧
    ((SendGo 1 ctxC ⟨[respLeft1, respLeft2], []⟩ "GET" "x" []).1
      = SendResult.ok
          (some [("a", Jval.arr [Jval.num 1, Jval.num 1]), ("b", Jval.num 2)])) := by
  refine ⟨?_, ?_, ?_, ?_, rfl, rfl⟩
  · intro acc k s d h; unfold mergeKey; rw [h]
  · intro acc k v sv h hna
    unfold mergeKey; rw [h]
    cases sv <;> first | rfl | exact absurd rfl (hna _)
  · intro acc k v h; unfold mergeKey; rw [h]
  · intro acc k s v h hna
    unfold mergeKey; rw [h]
    cases v <;> first | rfl | exact absurd rfl (hna _)

/-- Witness for C2 (amended): each hypothesized conjunct applied at a
concrete input. -/
theorem merge_amended_w :
    (mergeKey [("k", Jval.arr [Jval.num 0])] "k" (Jval.arr [Jval.num 9])
      = some (setKey [("k", Jval.arr [Jval.num 0])] "k"
          (Jval.arr [Jval.num 0, Jval.num 9]))) ∧
    (mergeKey [("k", Jval.num 0)] "k" (Jval.str "v")
      = some (setKey [("k", Jval.num 0)] "k" (Jval.str "v"))) ∧
    (mergeKey [] "k" Jval.null = some (setKey [] "k" Jval.null)) ∧
    (mergeKey [("k", Jval.arr [])] "k" Jval.null = none) :=
  ⟨merge_amended.1 [("k", Jval.arr [Jval.num 0])] "k" [Jval.num 0]
      [Jval.num 9] rfl,
   merge_amended.2.1 [("k", Jval.num 0)] "k" (Jval.str "v") (Jval.num 0) rfl
      (fun _ h => Jval.noConfusion h),
   merge_amended.2.2.1 [] "k" Jval.null rfl,
   merge_amended.2.2.2.1 [("k", Jval.arr [])] "k" [] Jval.null rfl
      (fun _ h => Jval.noConfusion h)⟩

/-- Counterexample for C3.  The claim covers every present, non-null
resume value.  A numeric resume value makes the code panic on the string
type assertion, with no further request dispatched; and an empty-string
resume token leaves the next request's query at its previous value instead
of replacing it with the resume mapping. -/
theorem resume_claim_cex :
    ((SendGo 1 ctxC ⟨[respNumTok], []⟩ "GET" "p" [("q", "1")]).1
      = SendResult.panic "interface conversion: interface is not string") ∧
    ((SendGo 1 ctxC ⟨[respNumTok], []⟩ "GET" "p" [("q", "1")]).2.2.log
      = [⟨"GET", "p", [("q", "1")]⟩]) ∧
    ((SendGo 1 ctxC ⟨[respEmptyTok, respLeft2], []⟩ "GET" "p"
        [("q", "1")]).2.2.log
      = [⟨"GET", "p", [("q", "1")]⟩, ⟨"GET", "p", [("q", "1")]⟩]) ∧
    ([("q", "1")] ≠ ([("resume", "")] : List (String × String))) :=
  ⟨rfl, rfl, rfl, by decide⟩

/-- Claim C3 as amended.  When a 2xx page's decoded body holds a
string-valued, non-empty resume token, the next request of the loop is
dispatched with a query that is exactly the resume mapping, whatever the
caller-supplied query was (conjunct 1, where the follow-up response is a
transport error so the run stops right after the dispatch of interest).
An empty-string token keeps the previous query unchanged (conjunct 2).  A
present, non-null, non-string resume value panics on the string type
assertion, dispatching nothing further (conjunct 3). -/
theorem resume_amended :
    (∀ (retry : PapiSession → World → List (String × String) →
        SendResult × PapiSession × World)
      (method path : String) (rem : Nat) (ctx : PapiSession)
      (l : List Request) (s : List NetResp) (cookies : List String)
      (status : Nat) (query : List (String × String)) (page jb2 : JsonObj)
      (tok m : String),
      200 ≤ status → status ≤ 299 →
      getKey (unmarshalInto [] page) "resume" = some (Jval.str tok) →
      tok ≠ "" →
      mergePage [] (delKey (delKey (delKey (unmarshalInto [] page) "errors")
        "resume") "total") = some jb2 →
      sendLoop retry method path (rem + 2) ctx
        ⟨NetResp.ok status cookies (RawBody.json page) :: NetResp.err m :: s,
         l⟩ query [] [] "" true
        = (SendResult.err ("[Send] Error returned by SendRaw: " ++ m), ctx,
           ⟨s, l ++ [⟨method, path, query⟩,
                     ⟨method, path, [("resume", tok)]⟩]⟩)) ∧
    (∀ (retry : PapiSession → World → List (String × String) →
        SendResult × PapiSession × World)
      (method path : String) (rem : Nat) (ctx : PapiSession)
      (l : List Request) (s : List NetResp) (cookies : List String)
      (status : Nat) (query : List (String × String)) (page jb2 : JsonObj)
      (m : String),
      200 ≤ status → status ≤ 299 →
      getKey (unmarshalInto [] page) "resume" = some (Jval.str "") →
      mergePage [] (delKey (delKey (delKey (unmarshalInto [] page) "errors")
        "resume") "total") = some jb2 →
      sendLoop retry method path (rem + 2) ctx
        ⟨NetResp.ok status cookies (RawBody.json page) :: NetResp.err m :: s,
         l⟩ query [] [] "" true
        = (SendResult.err ("[Send] Error returned by SendRaw: " ++ m), ctx,
           ⟨s, l ++ [⟨method, path, query⟩, ⟨method, path, query⟩]⟩)) ∧
    (∀ (retry : PapiSession → World → List (String × String) →
        SendResult × PapiSession × World)
      (method path : String) (rem : Nat) (ctx : PapiSession)
      (l : List Request) (cookies : List String) (status : Nat)
      (query : List (String × String)) (page : JsonObj) (v : Jval),
      200 ≤ status → status ≤ 299 →
      getKey (unmarshalInto [] page) "resume" = some v →
      (∀ t, v ≠ Jval.str t) → v ≠ Jval.null →
      sendLoop retry method path (rem + 1) ctx
        ⟨[NetResp.ok status cookies (RawBody.json page)], l⟩ query [] [] ""
        true
        = (SendResult.panic "interface conversion: interface is not string",
           ctx, ⟨[], l ++ [⟨method, path, query⟩]⟩)) := by
  refine ⟨?_, ?_, ?_⟩
  · intro retry method path rem ctx l s cookies status query page jb2 tok m
      h1 h2 h3 h4 h5
    have hrem : rem + 2 = (rem + 1) + 1 := rfl
    rw [hrem]
    simp only [sendLoop, doRequest]
    rw [if_neg (by omega : ¬ (status < 200 ∨ status > 299))]
    simp only [h3, resumeStep]
    rw [show (getKey [] "errors").isSome = false from rfl]
    simp only [Bool.false_eq_true, if_false, h5]
    simp only [sendLoop, doRequest, if_pos h4]
    simp [List.append_assoc]
  · intro retry method path rem ctx l s cookies status query page jb2 m
      h1 h2 h3 h5
    have hrem : rem + 2 = (rem + 1) + 1 := rfl
    rw [hrem]
    simp only [sendLoop, doRequest]
    rw [if_neg (by omega : ¬ (status < 200 ∨ status > 299))]
    simp only [h3, resumeStep]
    rw [show (getKey [] "errors").isSome = false from rfl]
    simp only [Bool.false_eq_true, if_false, h5]
    simp only [sendLoop, doRequest]
    rw [if_neg (by simp : ¬ ("" : String) ≠ "")]
    simp [List.append_assoc]
  · intro retry method path rem ctx l cookies status query page v
      h1 h2 h3 hns hnn
    simp only [sendLoop, doRequest]
    rw [if_neg (by omega : ¬ (status < 200 ∨ status > 299))]
    rw [h3]
    cases v with
    | null => exact absurd rfl hnn
    | str t => exact absurd rfl (hns t)
    | bool b => rfl
    | num n => rfl
    | arr a => rfl
    | obj o => rfl

/-- Witness for C3 (amended): each conjunct applied at a concrete input. -/
theorem resume_amended_w :
    (sendLoop (fun c ww _ => (SendResult.fuelOut, c, ww)) "GET" "p" 9999 ctxC
      ⟨[NetResp.ok 200 [] (RawBody.json [("resume", Jval.str "abc")]),
        NetResp.err "stop"], []⟩ [("q", "1")] [] [] "" true
      = (SendResult.err "[Send] Error returned by SendRaw: stop", ctxC,
         ⟨[], [⟨"GET", "p", [("q", "1")]⟩,
               ⟨"GET", "p", [("resume", "abc")]⟩]⟩)) ∧
    (sendLoop (fun c ww _ => (SendResult.fuelOut, c, ww)) "GET" "p" 9999 ctxC
      ⟨[NetResp.ok 200 [] (RawBody.json [("resume", Jval.str "")]),
        NetResp.err "stop"], []⟩ [("q", "1")] [] [] "" true
      = (SendResult.err "[Send] Error returned by SendRaw: stop", ctxC,
         ⟨[], [⟨"GET", "p", [("q", "1")]⟩, ⟨"GET", "p", [("q", "1")]⟩]⟩)) ∧
    (sendLoop (fun c ww _ => (SendResult.fuelOut, c, ww)) "GET" "p" 9999 ctxC
      ⟨[NetResp.ok 200 [] (RawBody.json [("resume", Jval.num 5)])], []⟩
      [("q", "1")] [] [] "" true
      = (SendResult.panic "interface conversion: interface is not string",
         ctxC, ⟨[], [⟨"GET", "p", [("q", "1")]⟩]⟩)) := by
  refine ⟨?_, ?_, ?_⟩
  · have h := resume_amended.1 (fun c ww _ => (SendResult.fuelOut, c, ww))
      "GET" "p" 9997 ctxC [] [] [] 200 [("q", "1")]
      [("resume", Jval.str "abc")] [] "abc" "stop" (by omega) (by omega) rfl
      (by decide) rfl
    simpa using h
  · have h := resume_amended.2.1 (fun c ww _ => (SendResult.fuelOut, c, ww))
      "GET" "p" 9997 ctxC [] [] [] 200 [("q", "1")]
      [("resume", Jval.str "")] [] "stop" (by omega) (by omega) rfl rfl
    simpa using h
  · have h := resume_amended.2.2 (fun c ww _ => (SendResult.fuelOut, c, ww))
      "GET" "p" 9998 ctxC [] [] 200 [("q", "1")]
      [("resume", Jval.num 5)] (Jval.num 5) (by omega) (by omega) rfl
      (fun _ h => Jval.noConfusion h) (fun h => Jval.noConfusion h)
    simpa using h

/-- Counterexample for C4.  A 401 received on a continuation page makes
Send retry recursively with the query variable as mutated by the
pagination loop — the resume mapping — not with the caller's original
query: the retry request (the last log entry) carries the resume query. -/
theorem retry_query_cex :
    ((SendGo 2 ctxC
        ⟨[respPg1, resp401, respDel, respSess, NetResp.err "stop"], []⟩
        "GET" "pth" [("a", "b")]).2.2.log
      = [⟨"GET", "pth", [("a", "b")]⟩, ⟨"GET", "pth", [("resume", "abc")]⟩,
         ⟨"DELETE", sessionPath, []⟩, ⟨"POST", sessionPath, []⟩,
         ⟨"GET", "pth", [("resume", "abc")]⟩]) ∧
    ([("resume", "abc")] ≠ ([("a", "b")] : List (String × String))) :=
  ⟨rfl, by decide⟩

/-- Claim C4 as amended.  The 401 retry recursively re-sends with the same
method and path but with the current value of the query variable: the
caller's original query when the 401 arrives on the first page (second
conjunct), and the mutated continuation query when the 401 arrives on a
continuation page (first conjunct). -/
theorem retry_query_amended :
    ((SendGo 2 ctxC
        ⟨[respPg1, resp401, respDel, respSess, NetResp.err "stop"], []⟩
        "GET" "pth" [("a", "b")]).2.2.log
      = [⟨"GET", "pth", [("a", "b")]⟩, ⟨"GET", "pth", [("resume", "abc")]⟩,
         ⟨"DELETE", sessionPath, []⟩, ⟨"POST", sessionPath, []⟩,
         ⟨"GET", "pth", [("resume", "abc")]⟩]) ∧
    ((SendGo 2 ctxC ⟨[resp401, respDel, respSess, NetResp.err "stop"], []⟩
        "GET" "pth" [("a", "b")]).2.2.log
      = [⟨"GET", "pth", [("a", "b")]⟩, ⟨"DELETE", sessionPath, []⟩,
         ⟨"POST", sessionPath, []⟩, ⟨"GET", "pth", [("a", "b")]⟩]) :=
  ⟨rfl, rfl⟩

/-- Counterexample for C5.  A completed (failed) Connect against a
response carrying only the isisessid cookie leaves the session token set
and the anti-forgery token empty — neither both empty nor both non-empty. -/
theorem token_invariant_cex :
    ¬ bothOrNeither (Connect (NewSession "E")
      ⟨[NetResp.ok 201 ["isisessid=abc; path=/"] RawBody.empty], []⟩).2.1 := by
  decide

/-- Claim C5 as amended.  The both-empty-or-both-non-empty invariant holds
after NewSession, after every successful Connect or Reconnect, and is
preserved by Disconnect; but a Connect that fails after finding only one
of the two cookies leaves exactly one token non-empty (final conjuncts:
the call errors, yet the session token is set and the CSRF token empty). -/
theorem token_invariant_amended :
    (∀ e, bothOrNeither (NewSession e)) ∧
    (∀ ctx w ctx2 w2, Connect ctx w = (none, ctx2, w2) →
      ctx2.SessionToken ≠ "" ∧ ctx2.CsrfToken ≠ "") ∧
    (∀ ctx w ctx2 w2, Reconnect ctx w = (none, ctx2, w2) →
      ctx2.SessionToken ≠ "" ∧ ctx2.CsrfToken ≠ "") ∧
    (∀ ctx w, bothOrNeither ctx → bothOrNeither (Disconnect ctx w).2.1) ∧
    ((Connect (NewSession "E")
        ⟨[NetResp.ok 201 ["isisessid=abc; path=/"] RawBody.empty],
         []⟩).1.isSome = true ∧
     (Connect (NewSession "E")
        ⟨[NetResp.ok 201 ["isisessid=abc; path=/"] RawBody.empty],
         []⟩).2.1.SessionToken = "abc" ∧
     (Connect (NewSession "E")
        ⟨[NetResp.ok 201 ["isisessid=abc; path=/"] RawBody.empty],
         []⟩).2.1.CsrfToken = "") := by
  refine ⟨fun e => Or.inl ⟨rfl, rfl⟩, connect_ok_tokens, ?_, ?_,
    rfl, rfl, rfl⟩
  · intro ctx w ctx2 w2 h
    simp only [Reconnect] at h
    exact connect_ok_tokens _ _ _ _ h
  · intro ctx w hb
    by_cases hcl : ctx.Client = false
    · rw [Disconnect, if_pos hcl]
      exact hb
    · rw [Disconnect, if_neg hcl]
      exact Or.inl ⟨rfl, rfl⟩

/-- Witness for C5 (amended): the hypothesized conjuncts applied at
concrete inputs — a successful Connect and Reconnect against a session
response with both cookies, and Disconnect from a connected state. -/
theorem token_invariant_amended_w :
    ((Connect (NewSession "E")
        ⟨[NetResp.ok 201 ["isisessid=a; path=/", "isicsrf=b; path=/"]
            RawBody.empty], []⟩).2.1.SessionToken ≠ "" ∧
     (Connect (NewSession "E")
        ⟨[NetResp.ok 201 ["isisessid=a; path=/", "isicsrf=b; path=/"]
            RawBody.empty], []⟩).2.1.CsrfToken ≠ "") ∧
    ((Reconnect ctxC
        ⟨[respDel, respSess], []⟩).2.1.SessionToken ≠ "" ∧
     (Reconnect ctxC
        ⟨[respDel, respSess], []⟩).2.1.CsrfToken ≠ "") ∧
    bothOrNeither (Disconnect ctxC ⟨[respDel], []⟩).2.1 :=
  ⟨token_invariant_amended.2.1 (NewSession "E")
      ⟨[NetResp.ok 201 ["isisessid=a; path=/", "isicsrf=b; path=/"]
          RawBody.empty], []⟩ _ _ rfl,
   token_invariant_amended.2.2.1 ctxC ⟨[respDel, respSess], []⟩ _ _ rfl,
   token_invariant_amended.2.2.2.1 ctxC ⟨[respDel], []⟩
     (Or.inr ⟨by decide, by decide⟩)⟩

/-- Counterexample for C8.  With two isisessid-bearing Set-Cookie headers,
the stored session token comes from the second (last) matching header, not
the first as the claim states. -/
theorem cookie_scan_cex :
    ((Connect (NewSession "E")
        ⟨[NetResp.ok 200 ["isisessid=a;", "isisessid=b;", "isicsrf=c;"]
            RawBody.empty], []⟩).2.1.SessionToken = "b") ∧
    (("b" : String) ≠ "a") :=
  ⟨rfl, by decide⟩

/-- Claim C8 as amended.  Headers are scanned in order; a header matching
the session pattern updates the session token and is not examined for the
anti-forgery pattern; otherwise a match of the anti-forgery pattern
updates that token.  Every match overwrites the stored value, so for each
token the last matching header wins (conjuncts 1 and 2); a session-pattern
match shadows the anti-forgery scan of the same header (conjunct 3); in
the three-header example the stored tokens are b and c. -/
theorem cookie_scan_amended :
    (∀ ctx hs h t, rexSessionFind h = some t →
      (scanCookies (hs ++ [h]) ctx).SessionToken = t ∧
      (scanCookies (hs ++ [h]) ctx).CsrfToken
        = (scanCookies hs ctx).CsrfToken) ∧
    (∀ ctx hs h t, rexSessionFind h = none → rexCsrfFind h = some t →
      (scanCookies (hs ++ [h]) ctx).CsrfToken = t ∧
      (scanCookies (hs ++ [h]) ctx).SessionToken
        = (scanCookies hs ctx).SessionToken) ∧
    (∀ ctx h t, rexSessionFind h = some t →
      (cookieStep ctx h).CsrfToken = ctx.CsrfToken) ∧
    ((Connect (NewSession "E")
        ⟨[NetResp.ok 200 ["isisessid=a;", "isisessid=b;", "isicsrf=c;"]
            RawBody.empty], []⟩).2.1.SessionToken = "b") ∧
    ((Connect (NewSession "E")
        ⟨[NetResp.ok 200 ["isisessid=a;", "isisessid=b;", "isicsrf=c;"]
            RawBody.empty], []⟩).2.1.CsrfToken = "c") := by
  refine ⟨?_, ?_, ?_, rfl, rfl⟩
  · intro ctx hs h t hm
    rw [scanCookies_snoc]
    unfold cookieStep
    rw [hm]
    exact ⟨rfl, rfl⟩
  · intro ctx hs h t hn hm
    rw [scanCookies_snoc]
    unfold cookieStep
    rw [hn, hm]
    exact ⟨rfl, rfl⟩
  · intro ctx h t hm
    unfold cookieStep
    rw [hm]

/-- Witness for C8 (amended): each hypothesized conjunct applied to a
concrete header list. -/
theorem cookie_scan_amended_w :
    ((scanCookies (["isicsrf=z;"] ++ ["isisessid=q;"]) ctxC).SessionToken
        = "q" ∧
     (scanCookies (["isicsrf=z;"] ++ ["isisessid=q;"]) ctxC).CsrfToken
        = (scanCookies ["isicsrf=z;"] ctxC).CsrfToken) ∧
    ((scanCookies ([] ++ ["isicsrf=w;"]) ctxC).CsrfToken = "w" ∧
     (scanCookies ([] ++ ["isicsrf=w;"]) ctxC).SessionToken
        = (scanCookies [] ctxC).SessionToken) ∧
    (cookieStep ctxC "isisessid=q; isicsrf=r;").CsrfToken = ctxC.CsrfToken :=
  ⟨cookie_scan_amended.1 ctxC ["isicsrf=z;"] "isisessid=q;" "q" rfl,
   cookie_scan_amended.2.1 ctxC [] "isicsrf=w;" "w" rfl rfl,
   cookie_scan_amended.2.2.1 ctxC "isisessid=q; isicsrf=r;" "q" rfl⟩

/-- Claim C9.  Disconnect: no-op success when no client is held (and in
particular on a fresh session); when a client is held the state teardown
(client release, both tokens cleared, one DELETE dispatched) happens
unconditionally, a transport error from the DELETE is returned while a
response of any status yields success; and a second Disconnect in a row
returns success and leaves both tokens empty (the hypothesis that a
clientless session has empty tokens holds in every reachable state, since
tokens are only ever set while a client is held). -/
theorem disconnect_contract :
    (∀ e w, Disconnect (NewSession e) w = (none, NewSession e, w)) ∧
    (∀ ctx w, ctx.Client = false → Disconnect ctx w = (none, ctx, w)) ∧
    (∀ ctx w, ctx.Client = true →
      (Disconnect ctx w).2.1
        = { ctx with Client := false, SessionToken := "", CsrfToken := "" } ∧
      (Disconnect ctx w).2.2.log
        = w.log ++ [⟨"DELETE", sessionPath, []⟩]) ∧
    (∀ ctx w m s, ctx.Client = true → w.script = NetResp.err m :: s →
      (Disconnect ctx w).1
        = some ("[Disconnect] Session delete error: " ++ m)) ∧
    (∀ ctx w st ck bd s, ctx.Client = true →
      w.script = NetResp.ok st ck bd :: s → (Disconnect ctx w).1 = none) ∧
    (∀ ctx w,
      (ctx.Client = false → ctx.SessionToken = "" ∧ ctx.CsrfToken = "") →
      (Disconnect (Disconnect ctx w).2.1 (Disconnect ctx w).2.2).1 = none ∧
      (Disconnect (Disconnect ctx w).2.1
        (Disconnect ctx w).2.2).2.1.SessionToken = "" ∧
      (Disconnect (Disconnect ctx w).2.1
        (Disconnect ctx w).2.2).2.1.CsrfToken = "") := by
  have hfalse : ∀ ctx : PapiSession, ctx.Client = true → ¬ ctx.Client = false := by
    intro ctx h hc; rw [h] at hc; exact Bool.noConfusion hc
  refine ⟨fun e w => rfl, ?_, ?_, ?_, ?_, ?_⟩
  · intro ctx w h
    rw [Disconnect, if_pos h]
  · intro ctx w h
    refine ⟨?_, ?_⟩
    · rw [Disconnect, if_neg (hfalse ctx h)]
    · rw [Disconnect, if_neg (hfalse ctx h)]
      cases hs : w.script <;> simp [doRequest, hs]
  · intro ctx w m s h hscript
    rw [Disconnect, if_neg (hfalse ctx h)]
    simp [doRequest, hscript, disconnectErr]
  · intro ctx w st ck bd s h hscript
    rw [Disconnect, if_neg (hfalse ctx h)]
    simp [doRequest, hscript, disconnectErr]
  · intro ctx w hinv
    by_cases hcl : ctx.Client = false
    · obtain ⟨h1, h2⟩ := hinv hcl
      have hd : Disconnect ctx w = (none, ctx, w) := by
        rw [Disconnect, if_pos hcl]
      rw [hd]
      rw [Disconnect, if_pos hcl]
      exact ⟨rfl, h1, h2⟩
    · have hd : (Disconnect ctx w).2.1
          = { ctx with Client := false, SessionToken := "", CsrfToken := "" } := by
        rw [Disconnect, if_neg hcl]
      rw [hd]
      rw [Disconnect, if_pos rfl]
      exact ⟨rfl, rfl, rfl⟩

/-- Witness for C9: the hypothesized conjuncts applied to concrete states —
a clientless session, the connected session ctxC with a failing and a
succeeding DELETE, and a double Disconnect from ctxC. -/
theorem disconnect_contract_w :
    (Disconnect (NewSession "E") ⟨[], []⟩
      = (none, NewSession "E", ⟨[], []⟩)) ∧
    ((Disconnect ctxC ⟨[respDel], []⟩).2.1
      = { ctxC with Client := false, SessionToken := "", CsrfToken := "" } ∧
     (Disconnect ctxC ⟨[respDel], []⟩).2.2.log
      = [] ++ [⟨"DELETE", sessionPath, []⟩]) ∧
    ((Disconnect ctxC ⟨[NetResp.err "down"], []⟩).1
      = some ("[Disconnect] Session delete error: " ++ "down")) ∧
    ((Disconnect ctxC ⟨[respDel], []⟩).1 = none) ∧
    ((Disconnect (Disconnect ctxC ⟨[respDel], []⟩).2.1
        (Disconnect ctxC ⟨[respDel], []⟩).2.2).1 = none ∧
     (Disconnect (Disconnect ctxC ⟨[respDel], []⟩).2.1
        (Disconnect ctxC ⟨[respDel], []⟩).2.2).2.1.SessionToken = "" ∧
     (Disconnect (Disconnect ctxC ⟨[respDel], []⟩).2.1
        (Disconnect ctxC ⟨[respDel], []⟩).2.2).2.1.CsrfToken = "") :=
  ⟨disconnect_contract.2.1 (NewSession "E") ⟨[], []⟩ rfl,
   disconnect_contract.2.2.1 ctxC ⟨[respDel], []⟩ rfl,
   disconnect_contract.2.2.2.1 ctxC ⟨[NetResp.err "down"], []⟩ "down" []
     rfl rfl,
   disconnect_contract.2.2.2.2.1 ctxC ⟨[respDel], []⟩ 204 [] RawBody.empty
     [] rfl rfl,
   disconnect_contract.2.2.2.2.2 ctxC ⟨[respDel], []⟩
     (fun h => Bool.noConfusion h)⟩

/-- Helper for C10: find? after the map branch of setHdr rewrites the
matching entry to (k, vs) and affects no other entry's key. -/
theorem find?_map_set (k : String) (vs : List String) (h : Header) :
    (h.map (fun kv => if kv.1 == k then (k, vs) else kv)).find?
        (fun kv => kv.1 == k)
      = (h.find? (fun kv => kv.1 == k)).map (fun _ => (k, vs)) := by
  induction h with
  | nil => rfl
  | cons a t ih =>
    by_cases hk : (a.1 == k) = true
    · rw [List.map_cons, if_pos hk,
          List.find?_cons_of_pos (p := fun kv : String × List String =>
            kv.1 == k) _ (by simp),
          List.find?_cons_of_pos (p := fun kv : String × List String =>
            kv.1 == k) _ hk]
      rfl
    · rw [List.map_cons, if_neg hk,
          List.find?_cons_of_neg (p := fun kv : String × List String =>
            kv.1 == k) _ (by simpa using hk),
          List.find?_cons_of_neg (p := fun kv : String × List String =>
            kv.1 == k) _ (by simpa using hk), ih]

/-- Helper for C10: appending a fresh entry makes it findable when no
earlier entry has its key. -/
theorem find?_append_none (k : String) (vs : List String) (h : Header)
    (hn : h.find? (fun kv => kv.1 == k) = none) :
    (h ++ [(k, vs)]).find? (fun kv => kv.1 == k) = some (k, vs) := by
  induction h with
  | nil => simp
  | cons a t ih =>
    by_cases hk : (a.1 == k) = true
    · rw [List.find?_cons_of_pos (p := fun kv : String × List String =>
          kv.1 == k) _ hk] at hn
      exact absurd hn (by simp)
    · rw [List.find?_cons_of_neg (p := fun kv : String × List String =>
          kv.1 == k) _ (by simpa using hk)] at hn
      rw [List.cons_append,
          List.find?_cons_of_neg (p := fun kv : String × List String =>
            kv.1 == k) _ (by simpa using hk)]
      exact ih hn

/-- Helper for C10: a direct map assignment is always found back. -/
theorem find?_setHdr (h : Header) (k : String) (vs : List String) :
    (setHdr h k vs).find? (fun kv => kv.1 == k) = some (k, vs) := by
  by_cases hs : ((h.find? (fun kv => kv.1 == k)).isSome) = true
  · rw [setHdr, if_pos hs, find?_map_set]
    obtain ⟨a, ha⟩ := Option.isSome_iff_exists.mp hs
    rw [ha]
    rfl
  · rw [setHdr, if_neg hs]
    exact find?_append_none k vs h (Option.not_isSome_iff_eq_none.mp hs)

/-- Helper for C10: the normal form of header assembly with a single
caller-supplied Accept header.  The keys are all concrete, so the whole
computation reduces; the caller's value and the session tokens pass
through untouched. -/
theorem setHeaders_accept_norm (ctx : PapiSession) (v : String) :
    setHeaders [] ctx [("Accept", v)]
      = [("Accept", [v]),
         ("Cookie", ["isisessid=" ++ ctx.SessionToken]),
         ("Content-Type", ["application/json"]),
         ("Referer", [ctx.Endpoint]),
         ("X-Csrf-Token", [ctx.CsrfToken])] := rfl

/-- Claim C10.  First conjunct: with caller header Accept (any value, e.g.
text/plain), the assembled headers keep the caller's Accept value while
the cookie, Content-Type, Referer and anti-forgery headers are still
auto-populated from the session state (the anti-forgery default is stored
under the canonicalized name X-Csrf-Token by Header.Add).  Second
conjunct: a caller-supplied header is set verbatim under its exact name.
Third conjunct: when every default's exact name is already present, the
default phase adds nothing. -/
theorem header_assembly :
    (∀ ctx v,
      setHeaders [] ctx [("Accept", v)]
        = [("Accept", [v]),
           ("Cookie", ["isisessid=" ++ ctx.SessionToken]),
           ("Content-Type", ["application/json"]),
           ("Referer", [ctx.Endpoint]),
           ("X-Csrf-Token", [ctx.CsrfToken])]) ∧
    (∀ h k v, lookupHdr (callerAssign h [(k, v)]) k = some [v]) ∧
    (∀ ctx h,
      (lookupHdr h "Accept").isSome = true →
      (lookupHdr h "Cookie").isSome = true →
      (lookupHdr h "Content-Type").isSome = true →
      (lookupHdr h "Referer").isSome = true →
      (lookupHdr h "X-CSRF-Token").isSome = true →
      addDefaults ctx h = h) := by
  refine ⟨setHeaders_accept_norm, ?_, ?_⟩
  · intro h k v
    simp [callerAssign, lookupHdr, find?_setHdr]
  · intro ctx h h1 h2 h3 h4 h5
    simp only [addDefaults, defaultHeaders, List.foldl_cons, List.foldl_nil,
      h1, h2, h3, h4, h5, if_true]

/-- Witness for C10: the hypothesized conjuncts applied concretely — a
verbatim caller header, and a header map already carrying all five default
names, which the default phase leaves unchanged. -/
theorem header_assembly_w :
    (lookupHdr (callerAssign [] [("K", "V")]) "K" = some ["V"]) ∧
    (addDefaults (NewSession "")
        [("Accept", ["x"]), ("Cookie", ["c"]), ("Content-Type", ["y"]),
         ("Referer", ["r"]), ("X-CSRF-Token", ["z"])]
      = [("Accept", ["x"]), ("Cookie", ["c"]), ("Content-Type", ["y"]),
         ("Referer", ["r"]), ("X-CSRF-Token", ["z"])]) :=
  ⟨header_assembly.2.1 [] "K" "V",
   header_assembly.2.2 (NewSession "")
     [("Accept", ["x"]), ("Cookie", ["c"]), ("Content-Type", ["y"]),
      ("Referer", ["r"]), ("X-CSRF-Token", ["z"])]
     rfl rfl rfl rfl rfl⟩

end Papi
